import Mathlib

/-!
Verification of the clause-chain SQL statement assembler
(source: src/src/ast_builder.rs).

The Rust data types and functions are embedded shallowly:

* `StatementType`, `QueryBlock`, `Model` mirror the Rust declarations;
  the Rust field `secondary_part : Option<Box<QueryBlock>>` becomes
  `Option QueryBlock` in a nested inductive.
* Rust `Vec::join(sep)` is embedded as `joinSep sep`.
* The factory functions `select`, `update`, `delete`, `insert` and the
  append operations `values`, `set`, `where_clause` are translated
  one-to-one.  The Rust `update` calls `panic!` when `fields` is `None`;
  the panic is embedded as the `none` case of an `Option` result.
* `traverse_to_the_latest_node` followed by the assignment
  `latest_node.secondary_part = Some(..)` is the in-place mutation of the
  chain tail; its functional meaning is `attach_at_latest_node`, which
  rebuilds the chain with the new node linked after the old tail.
* `compile_statement` calls a recursive helper accumulating
  `acc + " " + query_part` and then byte-slices the result with `[1..]`;
  the slice is embedded as the checked operation `byteSlice_from1`
  (failing when the string is empty or byte 1 is not a char boundary),
  so that the absence of a panic in `compile_statement` is a theorem
  rather than an assumption.
* Rust `HashMap` iteration order is unspecified; the `set` argument is
  embedded as the list of key-value pairs in iteration order, and the
  theorems quantify over every such order.
-/

inductive StatementType : Type where
  | Select
  | Update
  | Delete
  | Insert
deriving DecidableEq

/-- Embeds the Rust struct QueryBlock: one clause node with the rendered
fragment, an optional next node, and the statement kind. -/
inductive QueryBlock : Type where
  | mk (query_part : String) (secondary_part : Option QueryBlock) (statement_type : StatementType)

def QueryBlock.query_part : QueryBlock → String
  | .mk q _ _ => q

def QueryBlock.secondary_part : QueryBlock → Option QueryBlock
  | .mk _ s _ => s

def QueryBlock.statement_type : QueryBlock → StatementType
  | .mk _ _ t => t

/-- Embeds the Rust struct Model: a table name and an optional field list. -/
structure Model where
  name : String
  fields : Option (List String)

/-- Embeds Rust Vec::join: the elements concatenated with the separator
between consecutive elements, nothing at either end. -/
def joinSep (sep : String) : List String → String
  | [] => ""
  | [x] => x
  | x :: y :: rest => x ++ sep ++ joinSep sep (y :: rest)

/-- Embeds the Rust function select. -/
def select (model : Model) : QueryBlock :=
  match model.fields with
  | some fields =>
      QueryBlock.mk ("SELECT " ++ joinSep ", " fields ++ " FROM " ++ model.name)
        none StatementType.Select
  | none =>
      QueryBlock.mk ("SELECT * FROM " ++ model.name) none StatementType.Select

/-- Embeds the Rust function update.  The Rust code panics
(Update query must have fields) when fields is None; the panic is the
none result. -/
def update (model : Model) : Option QueryBlock :=
  match model.fields with
  | some _ =>
      some (QueryBlock.mk ("UPDATE " ++ model.name) none StatementType.Update)
  | none => none

/-- Embeds the Rust function delete. -/
def delete (model : Model) : QueryBlock :=
  QueryBlock.mk ("DELETE FROM " ++ model.name) none StatementType.Delete

/-- Embeds the Rust function insert. -/
def insert (model : Model) : QueryBlock :=
  match model.fields with
  | some fields =>
      QueryBlock.mk ("INSERT INTO " ++ model.name ++ " (" ++ joinSep ", " fields ++ ")")
        none StatementType.Insert
  | none =>
      QueryBlock.mk ("INSERT INTO " ++ model.name) none StatementType.Insert

/-- Functional meaning of the Rust traverse_to_the_latest_node walk
followed by the assignment of the new node to the tail field
secondary_part: the chain with the node linked after the old tail. -/
def attach_at_latest_node : QueryBlock → QueryBlock → QueryBlock
  | .mk q none t, node => .mk q (some node) t
  | .mk q (some next) t, node => .mk q (some (attach_at_latest_node next node)) t

/-- Embeds SecondaryPart::values for QueryBlock. -/
def QueryBlock.values (self : QueryBlock) (values : List String) : QueryBlock :=
  attach_at_latest_node self
    (QueryBlock.mk ("VALUES (" ++ joinSep ", " values ++ ")") none self.statement_type)

/-- Embeds SecondaryPart::set for QueryBlock; arguments is the list of
key-value pairs of the Rust HashMap in iteration order. -/
def QueryBlock.set (self : QueryBlock) (arguments : List (String × String)) : QueryBlock :=
  attach_at_latest_node self
    (QueryBlock.mk ("SET " ++ joinSep ", " (arguments.map (fun kv => kv.1 ++ " = " ++ kv.2)))
      none self.statement_type)

/-- Embeds SecondaryPart::where_clause for QueryBlock. -/
def QueryBlock.where_clause (self : QueryBlock) (where_clause : String) : QueryBlock :=
  attach_at_latest_node self
    (QueryBlock.mk ("WHERE " ++ where_clause) none self.statement_type)

/-- Embeds the inner helper of compile_statement. -/
def compile_helper : QueryBlock → String → String
  | .mk q none _, acc => acc ++ " " ++ q
  | .mk q (some next) _, acc => compile_helper next (acc ++ " " ++ q)

/-- Embeds the Rust byte slice s[1..]: fails (panics) when the string is
empty or when byte index 1 is not a char boundary, otherwise drops the
first character. -/
def byteSlice_from1 (s : String) : Option String :=
  match s.data with
  | [] => none
  | c :: cs => if c.utf8Size = 1 then some (String.mk cs) else none

/-- Embeds the Rust function compile_statement together with the panic
possibility of its byte slice. -/
def compile_statement_checked (statement : QueryBlock) : Option String :=
  byteSlice_from1 (compile_helper statement "")

/-- The compiled statement string (the slice succeeds on every chain, see
compile_statement_checked_eq). -/
def compile_statement (statement : QueryBlock) : String :=
  (compile_statement_checked statement).getD ""

/-- The list of fragment texts of a chain, head to tail. -/
def QueryBlock.texts : QueryBlock → List String
  | .mk q none _ => [q]
  | .mk q (some next) _ => q :: QueryBlock.texts next

theorem joinSep_cons_of_ne_nil (sep x : String) (l : List String) (h : l ≠ []) :
    joinSep sep (x :: l) = x ++ sep ++ joinSep sep l := by
  cases l with
  | nil => exact absurd rfl h
  | cons y rest => rfl

theorem joinSep_append_singleton (sep x : String) (l : List String) (h : l ≠ []) :
    joinSep sep (l ++ [x]) = joinSep sep l ++ sep ++ x := by
  induction l with
  | nil => exact absurd rfl h
  | cons y rest ih =>
      cases rest with
      | nil => rfl
      | cons z rest2 =>
          rw [List.cons_append, joinSep_cons_of_ne_nil sep y ((z :: rest2) ++ [x]) (by simp),
            joinSep_cons_of_ne_nil sep y (z :: rest2) (by simp), ih (by simp)]
          simp [String.append_assoc]

theorem QueryBlock.texts_ne_nil (b : QueryBlock) : b.texts ≠ [] := by
  cases b with
  | mk q s t => cases s <;> simp [QueryBlock.texts]

theorem texts_attach (c node : QueryBlock) :
    (attach_at_latest_node c node).texts = c.texts ++ node.texts := by
  induction c, node using attach_at_latest_node.induct with
  | case1 q t node => cases node with
      | mk nq ns nt => cases ns <;> simp [attach_at_latest_node, QueryBlock.texts]
  | case2 q next t node ih =>
      simp [attach_at_latest_node, QueryBlock.texts, ih]

theorem compile_helper_eq (b : QueryBlock) (acc : String) :
    compile_helper b acc = acc ++ " " ++ joinSep " " b.texts := by
  induction b, acc using compile_helper.induct with
  | case1 q t acc => simp [compile_helper, QueryBlock.texts, joinSep]
  | case2 q next t acc ih =>
      rw [compile_helper, QueryBlock.texts, ih,
        joinSep_cons_of_ne_nil " " q next.texts (QueryBlock.texts_ne_nil next)]
      simp [String.append_assoc]

theorem byteSlice_from1_space (s : String) : byteSlice_from1 (" " ++ s) = some s := by
  have h : (" " ++ s).data = ' ' :: s.data := by
    simp [String.data_append]
  simp [byteSlice_from1, h]
  rfl

theorem compile_statement_checked_eq (b : QueryBlock) :
    compile_statement_checked b = some (joinSep " " b.texts) := by
  unfold compile_statement_checked
  rw [compile_helper_eq]
  have h : ("" : String) ++ " " ++ joinSep " " b.texts = " " ++ joinSep " " b.texts := by
    simp
  rw [h, byteSlice_from1_space]

theorem compile_statement_eq (b : QueryBlock) :
    compile_statement b = joinSep " " b.texts := by
  rw [compile_statement, compile_statement_checked_eq]
  rfl

theorem compile_single_node (q : String) (t : StatementType) :
    compile_statement (QueryBlock.mk q none t) = q := by
  rw [compile_statement_eq]
  rfl

theorem compile_attach_single (c : QueryBlock) (q : String) (t : StatementType) :
    compile_statement (attach_at_latest_node c (QueryBlock.mk q none t)) =
      compile_statement c ++ " " ++ q := by
  rw [compile_statement_eq, compile_statement_eq, texts_attach]
  have h : (QueryBlock.mk q none t).texts = [q] := rfl
  rw [h, joinSep_append_singleton " " q c.texts (QueryBlock.texts_ne_nil c)]

theorem append_congr_right (s x y : String) (h : x = y) : s ++ x = s ++ y := by
  rw [h]

theorem append_append_congr (a b x y : String) (h : x = y) :
    a ++ (b ++ x) = a ++ (b ++ y) := by
  rw [h]

theorem lit_merge_append (a b c s : String) (h : a ++ b = c) :
    a ++ (b ++ s) = c ++ s := by
  rw [← String.append_assoc, h]

/-- C1: compile_statement returns the fragment texts of the chain, head to
tail, joined with exactly one space each, with no leading or trailing
separator; on a single-node chain it returns the node text unchanged. -/
theorem C1_compile_joins_fragments (b : QueryBlock) (q : String) (t : StatementType) :
    compile_statement b = joinSep " " b.texts ∧
    compile_statement (QueryBlock.mk q none t) = q :=
  ⟨compile_statement_eq b, compile_single_node q t⟩

/-- C2: select always succeeds, returns a single-node chain, and that chain
compiles to SELECT followed by the comma-joined fields (or a star when the
fields are absent) and FROM followed by the model name. -/
theorem C2_select_renders (m : Model) :
    (select m).secondary_part = none ∧
    compile_statement (select m) =
      (match m.fields with
        | some fs => "SELECT " ++ joinSep ", " fs ++ " FROM " ++ m.name
        | none => "SELECT * FROM " ++ m.name) := by
  cases h : m.fields <;>
    simp [select, h, QueryBlock.secondary_part, compile_single_node]

/-- C3: update fails (the embedded panic, the none result) exactly when the
model fields are absent, producing no chain; when the fields are present it
returns the single-node chain UPDATE followed by the model name. -/
theorem C3_update_requires_fields (m : Model) :
    (update m = none ↔ m.fields = none) ∧
    (∀ b, update m = some b →
      b = QueryBlock.mk ("UPDATE " ++ m.name) none StatementType.Update ∧
      b.secondary_part = none ∧
      compile_statement b = "UPDATE " ++ m.name) := by
  constructor
  · cases h : m.fields <;> simp [update, h]
  · intro b hb
    cases h : m.fields with
    | none => rw [update] at hb; rw [h] at hb; cases hb
    | some fs =>
        rw [update] at hb
        rw [h] at hb
        cases hb
        exact ⟨rfl, rfl, compile_single_node _ _⟩

theorem C3_update_requires_fields_witness :
    update (Model.mk "users" none) = none ∧
    compile_statement
        (QueryBlock.mk ("UPDATE " ++ "users") none StatementType.Update) =
      "UPDATE " ++ "users" :=
  ⟨(C3_update_requires_fields (Model.mk "users" none)).1.mpr rfl,
    ((C3_update_requires_fields (Model.mk "users" (some ["id"]))).2
      (QueryBlock.mk ("UPDATE " ++ "users") none StatementType.Update) rfl).2.2⟩

/-- C4: each append operation returns a chain whose fragment texts are
exactly the texts of the old chain, in order and unchanged, followed by the
one new fragment attached at the old tail. -/
theorem C4_append_frame (c : QueryBlock) (vs : List String)
    (args : List (String × String)) (cond : String) :
    (c.values vs).texts = c.texts ++ ["VALUES (" ++ joinSep ", " vs ++ ")"] ∧
    (c.set args).texts =
      c.texts ++ ["SET " ++ joinSep ", " (args.map (fun kv => kv.1 ++ " = " ++ kv.2))] ∧
    (c.where_clause cond).texts = c.texts ++ ["WHERE " ++ cond] := by
  refine ⟨?_, ?_, ?_⟩ <;>
    simp [QueryBlock.values, QueryBlock.set, QueryBlock.where_clause,
      texts_attach, QueryBlock.texts]

theorem update_eq_some (m : Model) (fs : List String) (h : m.fields = some fs) :
    update m = some (QueryBlock.mk ("UPDATE " ++ m.name) none StatementType.Update) := by
  rw [update, h]

theorem select_fields_none (m : Model) (h : m.fields = none) :
    select m = QueryBlock.mk ("SELECT * FROM " ++ m.name) none StatementType.Select := by
  rw [select, h]

theorem insert_fields_none (m : Model) (h : m.fields = none) :
    insert m = QueryBlock.mk ("INSERT INTO " ++ m.name) none StatementType.Insert := by
  cases m with
  | mk name fields =>
      simp only [Model.fields] at h
      subst h
      rfl

theorem compile_values_eq (c : QueryBlock) (vs : List String) :
    compile_statement (c.values vs) =
      compile_statement c ++ " " ++ ("VALUES (" ++ joinSep ", " vs ++ ")") := by
  unfold QueryBlock.values
  exact compile_attach_single c _ _

theorem compile_set_eq (c : QueryBlock) (args : List (String × String)) :
    compile_statement (c.set args) =
      compile_statement c ++ " " ++
        ("SET " ++ joinSep ", " (args.map (fun kv => kv.1 ++ " = " ++ kv.2))) := by
  unfold QueryBlock.set
  exact compile_attach_single c _ _

theorem compile_where_clause_eq (c : QueryBlock) (w : String) :
    compile_statement (c.where_clause w) =
      compile_statement c ++ " " ++ ("WHERE " ++ w) := by
  unfold QueryBlock.where_clause
  exact compile_attach_single c _ _

/-- C5: set appends the fragment SET followed by the key-value pairs of the
mapping, each rendered as key = value and joined with comma-space, in the
iteration order of the mapping; consequently update followed by set on a
model with fields present compiles to the expected UPDATE statements. -/
theorem C5_set_renders (c : QueryBlock) (args : List (String × String)) (m : Model)
    (fs : List String) (h : m.fields = some fs) :
    (c.set args).texts =
      c.texts ++ ["SET " ++ joinSep ", " (args.map (fun kv => kv.1 ++ " = " ++ kv.2))] ∧
    (update m).map (fun b => compile_statement (b.set [("name", "John")])) =
      some ("UPDATE " ++ m.name ++ " SET name = John") ∧
    (update m).map
        (fun b => compile_statement ((b.set [("id", "2")]).where_clause "id = 1")) =
      some ("UPDATE " ++ m.name ++ " SET id = 2 WHERE id = 1") := by
  refine ⟨?_, ?_, ?_⟩
  · simp [QueryBlock.set, texts_attach, QueryBlock.texts]
  · rw [update_eq_some m fs h, Option.map_some', compile_set_eq, compile_single_node]
    simp only [String.append_assoc]
    exact congrArg some (append_append_congr _ _ _ _ (by decide))
  · rw [update_eq_some m fs h, Option.map_some', compile_where_clause_eq, compile_set_eq,
      compile_single_node]
    simp only [String.append_assoc]
    exact congrArg some (append_append_congr _ _ _ _ (by decide))

theorem C5_set_renders_witness :
    (update (Model.mk "users" (some ["name"]))).map
        (fun b => compile_statement (b.set [("name", "John")])) =
      some ("UPDATE " ++ "users" ++ " SET name = John") :=
  (C5_set_renders (QueryBlock.mk "X" none StatementType.Select) [("a", "b")]
    (Model.mk "users" (some ["name"])) ["name"] rfl).2.1

/-- C6: insert always succeeds and returns a single-node chain compiling to
INSERT INTO followed by the model name and, when the fields are present,
the parenthesised comma-joined field list. -/
theorem C6_insert_renders (m : Model) :
    (insert m).secondary_part = none ∧
    compile_statement (insert m) =
      (match m.fields with
        | some fs => "INSERT INTO " ++ m.name ++ " (" ++ joinSep ", " fs ++ ")"
        | none => "INSERT INTO " ++ m.name) := by
  cases m with
  | mk name fields =>
      cases fields with
      | none => exact ⟨rfl, compile_single_node _ _⟩
      | some fs => exact ⟨rfl, compile_single_node _ _⟩

theorem joinSep_pair (sep x y : String) : joinSep sep [x, y] = x ++ (sep ++ y) := by
  simp [joinSep, String.append_assoc]

/-- C7: values appends the fragment VALUES followed by the parenthesised
comma-joined value strings, inserted literally with no quoting or
escaping; consequently insert on a model without fields followed by
values compiles to the expected INSERT statement. -/
theorem C7_values_renders (c : QueryBlock) (vs : List String) (m : Model) (v1 v2 : String)
    (h : m.fields = none) :
    (c.values vs).texts = c.texts ++ ["VALUES (" ++ joinSep ", " vs ++ ")"] ∧
    compile_statement ((insert m).values [v1, v2]) =
      "INSERT INTO " ++ m.name ++ " VALUES (" ++ v1 ++ ", " ++ v2 ++ ")" := by
  refine ⟨?_, ?_⟩
  · simp [QueryBlock.values, texts_attach, QueryBlock.texts]
  · rw [insert_fields_none m h, compile_values_eq, compile_single_node,
      joinSep_pair ", " v1 v2]
    simp only [String.append_assoc]
    exact append_append_congr _ _ _ _
      (lit_merge_append " " "VALUES (" " VALUES (" _ (by decide))

theorem C7_values_renders_witness :
    compile_statement ((insert (Model.mk "users" none)).values ["1", "John"]) =
      "INSERT INTO " ++ "users" ++ " VALUES (" ++ "1" ++ ", " ++ "John" ++ ")" :=
  (C7_values_renders (QueryBlock.mk "X" none StatementType.Select) []
    (Model.mk "users" none) "1" "John" rfl).2

/-- C8: where_clause appends the fragment WHERE followed by the condition
string verbatim and unparsed; consequently select on a model without
fields followed by where_clause compiles to the expected SELECT
statement. -/
theorem C8_where_clause_renders (c : QueryBlock) (cond : String) (m : Model)
    (h : m.fields = none) :
    (c.where_clause cond).texts = c.texts ++ ["WHERE " ++ cond] ∧
    compile_statement ((select m).where_clause "id = 1") =
      "SELECT * FROM " ++ m.name ++ " WHERE id = 1" := by
  refine ⟨?_, ?_⟩
  · simp [QueryBlock.where_clause, texts_attach, QueryBlock.texts]
  · rw [select_fields_none m h, compile_where_clause_eq, compile_single_node]
    simp only [String.append_assoc]
    exact append_append_congr _ _ _ _ (by decide)

theorem C8_where_clause_renders_witness :
    compile_statement ((select (Model.mk "users" none)).where_clause "id = 1") =
      "SELECT * FROM " ++ "users" ++ " WHERE id = 1" :=
  (C8_where_clause_renders (QueryBlock.mk "X" none StatementType.Select) "c"
    (Model.mk "users" none) rfl).2

/-- C9: the embedded panic of update is taken exactly when the model fields
are absent, and the byte slice inside compile_statement succeeds on every
chain, so compilation never fails; every other operation of the core is a
total function of the embedding and succeeds on all inputs by
construction. -/
theorem C9_only_update_fails (m : Model) (c : QueryBlock) :
    (update m = none ↔ m.fields = none) ∧
    compile_statement_checked c = some (compile_statement c) := by
  refine ⟨?_, ?_⟩
  · cases h : m.fields <;> simp [update, h]
  · rw [compile_statement_checked_eq, compile_statement_eq]

/-- C10: on empty inputs the appended fragments keep the keyword and its
separating characters: values of the empty list appends VALUES with empty
parentheses, where_clause of the empty string appends WHERE with a
trailing space, set of the empty mapping appends SET with a trailing
space, and these fragments reach the compiled string verbatim. -/
theorem C10_empty_inputs_keep_keyword (c : QueryBlock) :
    (c.values []).texts = c.texts ++ ["VALUES ()"] ∧
    (c.where_clause "").texts = c.texts ++ ["WHERE "] ∧
    (c.set []).texts = c.texts ++ ["SET "] ∧
    compile_statement (c.values []) = compile_statement c ++ " VALUES ()" ∧
    compile_statement (c.where_clause "") = compile_statement c ++ " WHERE " ∧
    compile_statement (c.set []) = compile_statement c ++ " SET " := by
  have hv : ("VALUES (" ++ joinSep ", " ([] : List String) ++ ")" : String) = "VALUES ()" := by
    decide
  have hw : ("WHERE " ++ "" : String) = "WHERE " := by decide
  have hs : ("SET " ++ joinSep ", "
      (([] : List (String × String)).map (fun kv => kv.1 ++ " = " ++ kv.2)) : String) =
      "SET " := by decide
  refine ⟨?_, ?_, ?_, ?_, ?_, ?_⟩
  · simp [QueryBlock.values, texts_attach, QueryBlock.texts, hv]
  · simp [QueryBlock.where_clause, texts_attach, QueryBlock.texts, hw]
  · simp [QueryBlock.set, texts_attach, QueryBlock.texts]
    decide
  · rw [compile_values_eq, hv, String.append_assoc]
    refine append_congr_right _ _ _ ?_
    decide
  · rw [compile_where_clause_eq, hw, String.append_assoc]
    refine append_congr_right _ _ _ ?_
    decide
  · rw [compile_set_eq, hs, String.append_assoc]
    refine append_congr_right _ _ _ ?_
    decide
